import Mathlib

/-!
Formal model of the FITE7405-A3 option-pricing engine (Final Code directory):
Black-Scholes analytic pricer, geometric Asian / basket closed forms,
arithmetic Asian / basket Monte Carlo pricers with geometric control variate,
binomial tree pricer, Newton-Raphson implied volatility and KIKO put pricer.

Python floats are modelled as real numbers; `scipy.stats.norm.cdf` is the
standard normal cumulative distribution function, defined below as the
Lebesgue integral of the standard normal density; `scipy.stats.norm.pdf`
is the density itself.  Random and quasi-random draw matrices
(`numpy.random.standard_normal`, `sobol_seq` + `norm.ppf`) are passed as
explicit function parameters, indexed by the generator state, so that the
state-dependence of each pricer is visible in its type.
-/

open MeasureTheory

noncomputable section

/-- Standard normal probability density (scipy.stats.norm.pdf). -/
def normPdf (x : ℝ) : ℝ := Real.exp (-(x ^ 2) / 2) / Real.sqrt (2 * Real.pi)

/-- Standard normal cumulative distribution function (scipy.stats.norm.cdf). -/
def normCdf (x : ℝ) : ℝ := ∫ t in Set.Iic x, normPdf t

lemma normPdf_pos (x : ℝ) : 0 < normPdf x := by
  apply div_pos (Real.exp_pos _)
  exact Real.sqrt_pos.mpr (by positivity)

lemma normPdf_nonneg (x : ℝ) : 0 ≤ normPdf x := (normPdf_pos x).le

lemma normPdf_even (x : ℝ) : normPdf (-x) = normPdf x := by
  simp [normPdf, neg_sq]

lemma normPdf_eq (x : ℝ) :
    normPdf x = Real.exp (-(1 / 2) * x ^ 2) / Real.sqrt (2 * Real.pi) := by
  rw [normPdf]
  ring_nf

lemma integrable_normPdf : Integrable normPdf := by
  have h : Integrable fun x : ℝ => Real.exp (-(1 / 2) * x ^ 2) :=
    integrable_exp_neg_mul_sq (by norm_num)
  have := h.div_const (Real.sqrt (2 * Real.pi))
  refine this.congr ?_
  filter_upwards with x
  rw [normPdf_eq]

lemma integral_normPdf : ∫ x, normPdf x = 1 := by
  have h : ∫ x : ℝ, Real.exp (-(1 / 2) * x ^ 2) = Real.sqrt (Real.pi / (1 / 2)) :=
    integral_gaussian (1 / 2)
  have hs : Real.sqrt (Real.pi / (1 / 2)) = Real.sqrt (2 * Real.pi) := by
    norm_num [mul_comm]
  have hpos : (0 : ℝ) < Real.sqrt (2 * Real.pi) :=
    Real.sqrt_pos.mpr (by positivity)
  calc ∫ x, normPdf x
      = (∫ x : ℝ, Real.exp (-(1 / 2) * x ^ 2)) / Real.sqrt (2 * Real.pi) := by
        rw [← integral_div]
        exact integral_congr_ae (Filter.Eventually.of_forall fun x => normPdf_eq x)
    _ = 1 := by rw [h, hs, div_self hpos.ne']

lemma normCdf_nonneg (x : ℝ) : 0 ≤ normCdf x :=
  setIntegral_nonneg measurableSet_Iic fun t _ => normPdf_nonneg t

/-- The reflection identity: `Φ(-x) = ∫_{(x,∞)} φ`. -/
lemma normCdf_neg_eq_Ioi (x : ℝ) : normCdf (-x) = ∫ t in Set.Ioi x, normPdf t := by
  have h : (∫ t in Set.Iic (-x), normPdf t) = ∫ t in Set.Iic (-x), normPdf (-t) :=
    setIntegral_congr_fun measurableSet_Iic fun t _ => (normPdf_even t).symm
  rw [normCdf, h, integral_comp_neg_Iic, neg_neg]

/-- Φ(x) + Φ(-x) = 1: the two tails of the standard normal sum to the total mass. -/
lemma normCdf_add_neg (x : ℝ) : normCdf x + normCdf (-x) = 1 := by
  rw [normCdf, normCdf_neg_eq_Ioi, ← integral_normPdf]
  exact intervalIntegral.integral_Iic_add_Ioi integrable_normPdf.integrableOn
    integrable_normPdf.integrableOn

lemma normCdf_neg (x : ℝ) : normCdf (-x) = 1 - normCdf x := by
  have := normCdf_add_neg x
  linarith

lemma normCdf_le_one (x : ℝ) : normCdf x ≤ 1 := by
  have h := normCdf_add_neg x
  have := normCdf_nonneg (-x)
  linarith

lemma normCdf_zero : normCdf 0 = 1 / 2 := by
  have h := normCdf_add_neg 0
  rw [neg_zero] at h
  linarith

lemma normCdf_mono : Monotone normCdf := by
  intro x y hxy
  exact setIntegral_mono_set integrable_normPdf.integrableOn
    (Filter.Eventually.of_forall fun t => normPdf_nonneg t)
    (HasSubset.Subset.eventuallyLE (Set.Iic_subset_Iic.mpr hxy))

end

/-- Model of Python's `str.lower()` (`String.toLower` does not reduce in the
kernel; this maps the character list directly). -/
def pyLower (s : String) : String := ⟨s.data.map Char.toLower⟩

/-! ## Black-Scholes analytic pricer (Final Code/BlackScholes.py) -/

/-- Parameter set of `BlackScholesPricer.__init__`. -/
structure BSParams where
  S : ℝ
  K : ℝ
  T : ℝ
  sigma : ℝ
  r : ℝ
  q : ℝ
  option_type : String

namespace BlackScholesPricer

/-- `BlackScholesPricer._validate_parameters`, checks in source order. -/
noncomputable def validate_parameters (p : BSParams) : Except String Unit :=
  if p.S ≤ 0 then .error "The underlying asset price S must be greater than 0"
  else if p.K ≤ 0 then .error "The strike price K must be greater than 0"
  else if p.T ≤ 0 then .error "The time to maturity T must be greater than 0"
  else if p.sigma ≤ 0 then .error "The volatility sigma must be greater than 0"
  else if pyLower p.option_type ∉ (["call", "put"] : List String) then
    .error "option_type must be 'call' or 'put'"
  else .ok ()

/-- First component of `calculate_d1_d2`. -/
noncomputable def d1 (p : BSParams) : ℝ :=
  (Real.log (p.S / p.K) + (p.r - p.q) * p.T) / (p.sigma * Real.sqrt p.T) +
    0.5 * p.sigma * Real.sqrt p.T

/-- Second component of `calculate_d1_d2`. -/
noncomputable def d2 (p : BSParams) : ℝ :=
  (Real.log (p.S / p.K) + (p.r - p.q) * p.T) / (p.sigma * Real.sqrt p.T) -
    0.5 * p.sigma * Real.sqrt p.T

/-- `BlackScholesPricer.calculate_d1_d2`. -/
noncomputable def calculate_d1_d2 (p : BSParams) : ℝ × ℝ := (d1 p, d2 p)

/-- `BlackScholesPricer.call_value` at the precomputed `(d1, d2)`. -/
noncomputable def call_value (p : BSParams) : ℝ :=
  p.S * Real.exp (-p.q * p.T) * normCdf (d1 p) -
    p.K * Real.exp (-p.r * p.T) * normCdf (d2 p)

/-- `BlackScholesPricer.put_value` at the precomputed `(d1, d2)`. -/
noncomputable def put_value (p : BSParams) : ℝ :=
  p.K * Real.exp (-p.r * p.T) * normCdf (-d2 p) -
    p.S * Real.exp (-p.q * p.T) * normCdf (-d1 p)

end BlackScholesPricer

/-! ## Implied volatility solver (Final Code/ImpliedVolatility.py) -/

/-- Parameter set of `ImpliedVolatility.__init__`. -/
structure IVParams where
  S : ℝ
  K : ℝ
  T : ℝ
  r : ℝ
  q : ℝ
  option_premium : Option ℝ
  option_type : String

/-- Result dictionary of `ImpliedVolatility.calculate_implied_vol`. -/
structure IVResult where
  implied_vol : Option ℝ
  iterations : ℕ
  status : String

namespace ImpliedVolatility

/-- `ImpliedVolatility._calculate_d1_d2` (first component) at volatility `sigma`. -/
noncomputable def d1 (p : IVParams) (sigma : ℝ) : ℝ :=
  (Real.log (p.S / p.K) + (p.r - p.q + 0.5 * sigma ^ 2) * p.T) / (sigma * Real.sqrt p.T)

/-- `ImpliedVolatility._calculate_d1_d2` (second component) at volatility `sigma`. -/
noncomputable def d2 (p : IVParams) (sigma : ℝ) : ℝ :=
  d1 p sigma - sigma * Real.sqrt p.T

/-- Black-Scholes price recomputed inside the Newton loop at volatility `sigma`. -/
noncomputable def price (p : IVParams) (sigma : ℝ) : ℝ :=
  if p.option_type = "call" then
    p.S * Real.exp (-p.q * p.T) * normCdf (d1 p sigma) -
      p.K * Real.exp (-p.r * p.T) * normCdf (d2 p sigma)
  else
    p.K * Real.exp (-p.r * p.T) * normCdf (-d2 p sigma) -
      p.S * Real.exp (-p.q * p.T) * normCdf (-d1 p sigma)

/-- Vega recomputed inside the Newton loop (identical in both branches). -/
noncomputable def vega (p : IVParams) (sigma : ℝ) : ℝ :=
  p.S * Real.exp (-p.q * p.T) * normPdf (d1 p sigma) * Real.sqrt p.T

/-- The `for i in range(max_iter)` Newton-Raphson loop of `calculate_implied_vol`.
`fuel` is the number of loop iterations still allowed, `i` the current value of
the loop counter.  The `vega < 1e-12` guard `break`s out of the loop, landing on
the post-loop `max_iter_reached` return, which reports `iterations = max_iter`. -/
noncomputable def newton_loop (p : IVParams) (premium tol : ℝ) (max_iter : ℕ) :
    ℝ → ℕ → ℕ → IVResult
  | sigma, _, 0 => ⟨some sigma, max_iter, "max_iter_reached"⟩
  | sigma, i, fuel + 1 =>
    if |price p sigma - premium| < tol then ⟨some sigma, i + 1, "converged"⟩
    else if vega p sigma < 1e-12 then ⟨some sigma, max_iter, "max_iter_reached"⟩
    else newton_loop p premium tol max_iter
      (sigma - (price p sigma - premium) / vega p sigma) (i + 1) fuel

/-- Manaster-Koehler initial guess of `calculate_implied_vol`. -/
noncomputable def initial_sigma (p : IVParams) : ℝ :=
  Real.sqrt (2 * |(Real.log (p.S / p.K) + (p.r - p.q) * p.T) / p.T|)

/-- `ImpliedVolatility.calculate_implied_vol` (defaults `max_iter = 100000`,
`tol = 1e-6`). -/
noncomputable def calculate_implied_vol (p : IVParams) (max_iter : ℕ) (tol : ℝ) :
    IVResult :=
  match p.option_premium with
  | none => ⟨none, 0, "error"⟩
  | some premium => newton_loop p premium tol max_iter (initial_sigma p) 0 max_iter

end ImpliedVolatility

/-! ## numpy reductions used by the Monte Carlo pricers -/

/-- `np.mean` of a vector. -/
noncomputable def vecMean {m : ℕ} (v : Fin m → ℝ) : ℝ := (∑ i, v i) / m

/-- `np.std(v) ** 2`, i.e. the population variance (`ddof = 0`). -/
noncomputable def vecVarPop {m : ℕ} (v : Fin m → ℝ) : ℝ :=
  (∑ i, (v i - vecMean v) ^ 2) / m

/-- `np.std` of a vector (population normalization). -/
noncomputable def vecStd {m : ℕ} (v : Fin m → ℝ) : ℝ := Real.sqrt (vecVarPop v)

/-- Off-diagonal entry of `np.cov(v, w)` (sample covariance, `ddof = 1`). -/
noncomputable def vecCovSample {m : ℕ} (v w : Fin m → ℝ) : ℝ :=
  (∑ i, (v i - vecMean v) * (w i - vecMean w)) / ((m : ℝ) - 1)

/-! ## Geometric Asian closed form (Final Code/GeometricAsian.py) -/

/-- Parameter set of `GeometricAsianPricer.__init__` (the constructor lower-cases
`option_type`; the model applies `pyLower` wherever the attribute is read). -/
structure GAParams where
  S : ℝ
  K : ℝ
  T : ℝ
  sigma : ℝ
  r : ℝ
  n : ℕ
  option_type : String

namespace GeometricAsianPricer

/-- `GeometricAsianPricer._validate_parameters`. -/
noncomputable def validate_parameters (p : GAParams) : Except String Unit :=
  if ¬(0 < p.S ∧ 0 < p.K ∧ 0 < p.T ∧ 0 < p.sigma ∧ 0 < p.r) then
    .error "S, K, T, sigma, r should be larger than 0"
  else if p.n ≤ 0 then .error "Times of obervation n should be larger than0"
  else if pyLower p.option_type ∉ (["call", "put"] : List String) then
    .error "option_type must be'call' or 'put'"
  else .ok ()

/-- `self.sigma_hat` from `_calculate_parameters`. -/
noncomputable def sigma_hat (p : GAParams) : ℝ :=
  p.sigma * Real.sqrt (((p.n : ℝ) + 1) * (2 * (p.n : ℝ) + 1) / (6 * (p.n : ℝ) ^ 2))

/-- `self.miu_hat` from `_calculate_parameters`. -/
noncomputable def miu_hat (p : GAParams) : ℝ :=
  (p.r - 0.5 * p.sigma ^ 2) * ((p.n : ℝ) + 1) / (2 * (p.n : ℝ)) + 0.5 * sigma_hat p ^ 2

/-- `self.d1_hat` from `_calculate_parameters`. -/
noncomputable def d1_hat (p : GAParams) : ℝ :=
  (Real.log (p.S / p.K) + (miu_hat p + 0.5 * sigma_hat p ^ 2) * p.T) /
    (sigma_hat p * Real.sqrt p.T)

/-- `self.d2_hat` from `_calculate_parameters`. -/
noncomputable def d2_hat (p : GAParams) : ℝ :=
  d1_hat p - sigma_hat p * Real.sqrt p.T

/-- `GeometricAsianPricer._call_price`. -/
noncomputable def call_price (p : GAParams) : ℝ :=
  Real.exp (-p.r * p.T) *
    (p.S * Real.exp (miu_hat p * p.T) * normCdf (d1_hat p) - p.K * normCdf (d2_hat p))

/-- `GeometricAsianPricer._put_price`. -/
noncomputable def put_price (p : GAParams) : ℝ :=
  Real.exp (-p.r * p.T) *
    (p.K * normCdf (-d2_hat p) - p.S * Real.exp (miu_hat p * p.T) * normCdf (-d1_hat p))

/-- Price field of `GeometricAsianPricer.calculate_price`. -/
noncomputable def calculate_price (p : GAParams) : ℝ :=
  if pyLower p.option_type = "call" then call_price p else put_price p

end GeometricAsianPricer

/-! ## Arithmetic Asian Monte Carlo pricer (Final Code/ArithmeticAsian.py) -/

/-- Parameter set of `ArithmeticAsianPricer.__init__`. -/
structure AAParams where
  S0 : ℝ
  sigma : ℝ
  r : ℝ
  T : ℝ
  K : ℝ
  n : ℕ
  option_type : String
  m : ℕ
  control_variate : String

/-- Result dictionary of the Monte Carlo `calculate_price` methods. -/
structure MCResult where
  price : ℝ
  conf_interval : ℝ × ℝ
  status : String

namespace ArithmeticAsianPricer

/-- `self.dt = T / n`. -/
noncomputable def dt (p : AAParams) : ℝ := p.T / p.n

/-- `ArithmeticAsianPricer._validate_parameters`, checks in source order. -/
noncomputable def validate_parameters (p : AAParams) : Except String Unit :=
  if p.S0 ≤ 0 then .error "Initial price S0 must be positive"
  else if p.sigma ≤ 0 then .error "Volatility sigma must be positive"
  else if p.T ≤ 0 then .error "Time to maturity T must be positive"
  else if p.K ≤ 0 then .error "Strike price K must be positive"
  else if p.n ≤ 0 then .error "Number of observations n must be positive"
  else if p.m ≤ 0 then .error "Number of paths m must be positive"
  else if pyLower p.option_type ∉ (["call", "put"] : List String) then
    .error "option_type must be 'call' or 'put'"
  else if p.control_variate ∉ (["None", "Geometric Asian"] : List String) then
    .error "control_variate must be 'None' or 'Geometric Asian'"
  else .ok ()

/-- `sigma_g` inside `ArithmeticAsianPricer._geometric_price`. -/
noncomputable def sigma_g (p : AAParams) : ℝ :=
  p.sigma * Real.sqrt (((p.n : ℝ) + 1) * (2 * (p.n : ℝ) + 1) / (6 * (p.n : ℝ) ^ 2))

/-- `mu_g` inside `ArithmeticAsianPricer._geometric_price`: note the averaging
factor `(n+1)/(2n)` of the standalone geometric pricer is absent here. -/
noncomputable def mu_g (p : AAParams) : ℝ :=
  p.r - 0.5 * p.sigma ^ 2 + 0.5 * sigma_g p ^ 2

/-- `d1` inside `ArithmeticAsianPricer._geometric_price` (with `Bg0 = S0`). -/
noncomputable def geo_d1 (p : AAParams) : ℝ :=
  (Real.log (p.S0 / p.K) + (mu_g p + 0.5 * sigma_g p ^ 2) * p.T) /
    (sigma_g p * Real.sqrt p.T)

/-- `d2` inside `ArithmeticAsianPricer._geometric_price`. -/
noncomputable def geo_d2 (p : AAParams) : ℝ :=
  geo_d1 p - sigma_g p * Real.sqrt p.T

/-- `ArithmeticAsianPricer._geometric_price`. -/
noncomputable def geometric_price (p : AAParams) : ℝ :=
  if pyLower p.option_type = "call" then
    Real.exp (-p.r * p.T) *
      (p.S0 * Real.exp (mu_g p * p.T) * normCdf (geo_d1 p) - p.K * normCdf (geo_d2 p))
  else
    Real.exp (-p.r * p.T) *
      (p.K * normCdf (-geo_d2 p) - p.S0 * Real.exp (mu_g p * p.T) * normCdf (-geo_d1 p))

/-- The path matrix built by `_generate_paths` from a draw matrix `z`:
`S[:,0] = S0`, `S[:,k+1] = S[:,k] * exp((r - sigma^2/2)dt + sigma*sqrt(dt)*z[:,k])`. -/
noncomputable def S_path (p : AAParams) (z : Fin p.m → ℕ → ℝ) (i : Fin p.m) : ℕ → ℝ
  | 0 => p.S0
  | k + 1 => S_path p z i k *
      Real.exp ((p.r - 0.5 * p.sigma ^ 2) * dt p + p.sigma * Real.sqrt (dt p) * z i k)

/-- `ArithmeticAsianPricer.calculate_price`.  `stream` maps a numpy generator
state to the `standard_normal((m, n))` draw matrix it produces; `g` is the
generator state at call time.  `_generate_paths` begins with
`np.random.seed(0)`, so the draws are `stream 0` regardless of `g`. -/
noncomputable def calculate_price (p : AAParams) (stream : ℕ → Fin p.m → ℕ → ℝ)
    (g : ℕ) : MCResult :=
  let z := stream 0
  let arithmetic_avg : Fin p.m → ℝ :=
    fun i => (∑ k ∈ Finset.range p.n, S_path p z i (k + 1)) / p.n
  let payoff : Fin p.m → ℝ := fun i =>
    if pyLower p.option_type = "call" then max (arithmetic_avg i - p.K) 0
    else max (p.K - arithmetic_avg i) 0
  if p.control_variate = "Geometric Asian" then
    let geo_price := geometric_price p
    let geometric_avg : Fin p.m → ℝ :=
      fun i => Real.exp ((∑ k ∈ Finset.range p.n, Real.log (S_path p z i (k + 1))) / p.n)
    let geo_payoff : Fin p.m → ℝ := fun i =>
      if pyLower p.option_type = "call" then max (geometric_avg i - p.K) 0
      else max (p.K - geometric_avg i) 0
    let beta := vecCovSample payoff geo_payoff / vecCovSample geo_payoff geo_payoff
    let adjusted_payoff : Fin p.m → ℝ := fun i => payoff i - beta * (geo_payoff i - geo_price)
    let price := Real.exp (-p.r * p.T) * vecMean adjusted_payoff
    let std := vecStd adjusted_payoff
    ⟨price, (price - 1.96 * std / Real.sqrt p.m, price + 1.96 * std / Real.sqrt p.m),
      "success"⟩
  else
    let price := Real.exp (-p.r * p.T) * vecMean payoff
    let std := vecStd payoff
    ⟨price, (price - 1.96 * std / Real.sqrt p.m, price + 1.96 * std / Real.sqrt p.m),
      "success"⟩

end ArithmeticAsianPricer

/-! ## Geometric basket closed form (Final Code/GeometricBasket.py) -/

/-- Parameter set of `GeometricBasketPricer.__init__`. -/
structure GBParams where
  S_1 : ℝ
  S_2 : ℝ
  K : ℝ
  T : ℝ
  sigma_1 : ℝ
  sigma_2 : ℝ
  r : ℝ
  rho : ℝ
  optionType : String

namespace GeometricBasketPricer

/-- `GeometricBasketPricer._validate_parameters`, checks in source order. -/
noncomputable def validate_parameters (p : GBParams) : Except String Unit :=
  if p.S_1 ≤ 0 then .error "Spot price of asset 1 must be larger than 0"
  else if p.S_2 ≤ 0 then .error "Spot price of asset 2 must be larger than0"
  else if p.K ≤ 0 then .error "Strike K must be0"
  else if p.T ≤ 0 then .error "Time to maturity T must be larget than 0"
  else if p.sigma_1 ≤ 0 then .error "Volatility of asset 1 must be larger than 0"
  else if p.sigma_2 ≤ 0 then .error "Volatility of asset 2 must be larger than 0"
  else if p.rho < -1 ∨ 1 < p.rho then .error "Repo rate rho should be within [-1, 1]"
  else if pyLower p.optionType ∉ (["call", "put"] : List String) then
    .error "optionType should be 'call'or 'put'"
  else .ok ()

/-- `self.B_g_0 = (S_1 * S_2) ** (1/2)`. -/
noncomputable def B_g_0 (p : GBParams) : ℝ := Real.sqrt (p.S_1 * p.S_2)

/-- `self.sigma_B_g`. -/
noncomputable def sigma_B_g (p : GBParams) : ℝ :=
  Real.sqrt (p.sigma_1 ^ 2 + p.sigma_2 ^ 2 + 2 * p.sigma_1 * p.sigma_2 * p.rho) / 2

/-- `self.miu_B_g`. -/
noncomputable def miu_B_g (p : GBParams) : ℝ :=
  p.r - 0.5 * (p.sigma_1 ^ 2 + p.sigma_2 ^ 2) / 2 + 0.5 * sigma_B_g p ^ 2

end GeometricBasketPricer

/-! ## Arithmetic basket Monte Carlo pricer (Final Code/ArithmeticBasket.py) -/

/-- Parameter set of `ArithmeticBasketPricer.__init__`. -/
structure ABParams where
  S0_1 : ℝ
  S0_2 : ℝ
  sigma_1 : ℝ
  sigma_2 : ℝ
  rho : ℝ
  r : ℝ
  T : ℝ
  K : ℝ
  option_type : String
  m : ℕ
  control_variate : String

namespace ArithmeticBasketPricer

/-- `ArithmeticBasketPricer._validate_parameters`, checks in source order. -/
noncomputable def validate_parameters (p : ABParams) : Except String Unit :=
  if p.S0_1 ≤ 0 ∨ p.S0_2 ≤ 0 then .error "Initial prices S0_1 and S0_2 must be positive"
  else if p.sigma_1 ≤ 0 ∨ p.sigma_2 ≤ 0 then
    .error "Volatilities sigma_1 and sigma_2 must be positive"
  else if p.rho < -1 ∨ 1 < p.rho then
    .error "Correlation coefficient rho must be between -1 and 1"
  else if p.T ≤ 0 then .error "Time to maturity T must be positive"
  else if p.K ≤ 0 then .error "Strike price K must be positive"
  else if p.m ≤ 0 then .error "Number of paths m must be positive"
  else if pyLower p.option_type ∉ (["call", "put"] : List String) then
    .error "option_type must be 'call' or 'put'"
  else if p.control_variate ∉ (["None", "Geometric Basket"] : List String) then
    .error "control_variate must be 'None' or 'Geometric Basket'"
  else .ok ()

/-- `sigma_bg` inside `ArithmeticBasketPricer._geometric_price`. -/
noncomputable def sigma_bg (p : ABParams) : ℝ :=
  Real.sqrt (p.sigma_1 ^ 2 + p.sigma_2 ^ 2 + 2 * p.rho * p.sigma_1 * p.sigma_2) / 2

/-- `mu_bg` inside `ArithmeticBasketPricer._geometric_price`. -/
noncomputable def mu_bg (p : ABParams) : ℝ :=
  p.r - 0.5 * (p.sigma_1 ^ 2 + p.sigma_2 ^ 2) / 2 + 0.5 * sigma_bg p ^ 2

/-- `ArithmeticBasketPricer._geometric_price`. -/
noncomputable def geometric_price (p : ABParams) : ℝ :=
  let Bg0 := Real.sqrt (p.S0_1 * p.S0_2)
  let d1 := (Real.log (Bg0 / p.K) + (mu_bg p + 0.5 * sigma_bg p ^ 2) * p.T) /
    (sigma_bg p * Real.sqrt p.T)
  let d2 := d1 - sigma_bg p * Real.sqrt p.T
  if pyLower p.option_type = "call" then
    Real.exp (-p.r * p.T) * (Bg0 * Real.exp (mu_bg p * p.T) * normCdf d1 - p.K * normCdf d2)
  else
    Real.exp (-p.r * p.T) * (p.K * normCdf (-d2) - Bg0 * Real.exp (mu_bg p * p.T) * normCdf (-d1))

/-- Terminal prices of asset 1 built by `_generate_paths` from the correlated
draw matrix `z` (`z[:, 0]` component). -/
noncomputable def S1_T (p : ABParams) (z : Fin p.m → Fin 2 → ℝ) (i : Fin p.m) : ℝ :=
  p.S0_1 * Real.exp ((p.r - 0.5 * p.sigma_1 ^ 2) * p.T +
    p.sigma_1 * Real.sqrt p.T * z i 0)

/-- Terminal prices of asset 2 built by `_generate_paths` (`z[:, 1]` component). -/
noncomputable def S2_T (p : ABParams) (z : Fin p.m → Fin 2 → ℝ) (i : Fin p.m) : ℝ :=
  p.S0_2 * Real.exp ((p.r - 0.5 * p.sigma_2 ^ 2) * p.T +
    p.sigma_2 * Real.sqrt p.T * z i 1)

/-- `ArithmeticBasketPricer.calculate_price`.  `stream` maps a numpy generator
state to the `multivariate_normal` draw matrix it produces; `_generate_paths`
reseeds with `np.random.seed(0)`, so the draws are `stream 0` regardless of the
incoming state `g`. -/
noncomputable def calculate_price (p : ABParams) (stream : ℕ → Fin p.m → Fin 2 → ℝ)
    (g : ℕ) : MCResult :=
  let z := stream 0
  let B_a : Fin p.m → ℝ := fun i => (S1_T p z i + S2_T p z i) / 2
  let payoff : Fin p.m → ℝ := fun i =>
    if pyLower p.option_type = "call" then max (B_a i - p.K) 0 else max (p.K - B_a i) 0
  if p.control_variate = "Geometric Basket" then
    let geo_price := geometric_price p
    let B_g : Fin p.m → ℝ := fun i => Real.sqrt (S1_T p z i * S2_T p z i)
    let geo_payoff : Fin p.m → ℝ := fun i =>
      if pyLower p.option_type = "call" then max (B_g i - p.K) 0 else max (p.K - B_g i) 0
    let beta := vecCovSample payoff geo_payoff / vecCovSample geo_payoff geo_payoff
    let adjusted_payoff : Fin p.m → ℝ := fun i => payoff i - beta * (geo_payoff i - geo_price)
    let price := Real.exp (-p.r * p.T) * vecMean adjusted_payoff
    let std := vecStd adjusted_payoff
    ⟨price, (price - 1.96 * std / Real.sqrt p.m, price + 1.96 * std / Real.sqrt p.m),
      "success"⟩
  else
    let price := Real.exp (-p.r * p.T) * vecMean payoff
    let std := vecStd payoff
    ⟨price, (price - 1.96 * std / Real.sqrt p.m, price + 1.96 * std / Real.sqrt p.m),
      "success"⟩

end ArithmeticBasketPricer

/-! ## Binomial tree pricer (Final Code/BinomialTree.py) -/

/-- Parameter set of `BinomialTreePricer.__init__`.  Note the constructor
validates `S, K, T, sigma, n` and the option type but places no constraint on
`r`, and computes `u, d, p, df` only after validation. -/
structure BTParams where
  S : ℝ
  K : ℝ
  T : ℝ
  sigma : ℝ
  r : ℝ
  n : ℕ
  optionType : String

namespace BinomialTreePricer

/-- `BinomialTreePricer._validate_parameters`, checks in source order. -/
noncomputable def validate_parameters (p : BTParams) : Except String Unit :=
  if p.S ≤ 0 then .error "Current stock price S must be greater than 0"
  else if p.K ≤ 0 then .error "Strike price K must be greater than 0"
  else if p.T ≤ 0 then .error "Time to maturity T must be greater than 0"
  else if p.sigma ≤ 0 then .error "Volatility sigma must be greater than 0"
  else if p.n ≤ 0 then .error "Number of steps n must be greater than 0"
  else if pyLower p.optionType ∉ (["call", "put"] : List String) then
    .error "optionType must be 'call' or 'put'"
  else .ok ()

/-- `self.delta_t = T / n`. -/
noncomputable def delta_t (p : BTParams) : ℝ := p.T / p.n

/-- `self.u = exp(sigma * sqrt(delta_t))`. -/
noncomputable def u (p : BTParams) : ℝ := Real.exp (p.sigma * Real.sqrt (delta_t p))

/-- `self.d = 1 / u`. -/
noncomputable def d (p : BTParams) : ℝ := 1 / u p

/-- `self.p = (exp(r * delta_t) - d) / (u - d)`, the risk-neutral up-move
probability.  The source computes it in `__init__` and uses it in
`calculate_price` without any range check. -/
noncomputable def prob (p : BTParams) : ℝ :=
  (Real.exp (p.r * delta_t p) - d p) / (u p - d p)

/-- `self.df = exp(-r * delta_t)`. -/
noncomputable def df (p : BTParams) : ℝ := Real.exp (-p.r * delta_t p)

/-- Intrinsic payoff `prices[i] - K` or `K - prices[i]` according to the
option type (it enters the `max(0, ...)` of the source unclamped). -/
noncomputable def intrinsic (p : BTParams) (spot : ℝ) : ℝ :=
  if pyLower p.optionType = "call" then spot - p.K else p.K - spot

/-- Reconstructed spot `prices[i]` at backward-induction step `s`, node `i`:
the terminal value `S * u^(n-i) * d^i` after division by `u`, `n - s` times. -/
noncomputable def node_price (p : BTParams) (s i : ℕ) : ℝ :=
  p.S * u p ^ (p.n - i) * d p ^ i / u p ^ (p.n - s)

/-- Option values of the backward induction of `calculate_price`, indexed by
the number `k` of induction steps already folded (so `k = 0` is the terminal
layer at step `n`, and node `i` at `k` corresponds to tree step `n - k`):
`values[i] = max(0, intrinsic, df * (p * values[i] + (1 - p) * values[i+1]))`. -/
noncomputable def value : BTParams → ℕ → ℕ → ℝ
  | p, 0, i => max 0 (intrinsic p (node_price p p.n i))
  | p, k + 1, i =>
    max 0 (max (intrinsic p (node_price p (p.n - (k + 1)) i))
      (df p * (prob p * value p k i + (1 - prob p) * value p k (i + 1))))

/-- Result dictionary of `BinomialTreePricer.calculate_price`. -/
structure BTResult where
  price : ℝ
  status : String

/-- `BinomialTreePricer.calculate_price`: full backward induction, root value;
the `try` body contains no failing operation over the reals, so the `except`
branch is unreachable and the status is always `success`. -/
noncomputable def calculate_price (p : BTParams) : BTResult :=
  ⟨value p p.n 0, "success"⟩

end BinomialTreePricer

/-! ## KIKO put Monte Carlo pricer (Final Code/KIKO.py) -/

/-- Parameter set of `KIKOPutPricer.__init__`. -/
structure KikoParams where
  S0 : ℝ
  sigma : ℝ
  r : ℝ
  T : ℝ
  K : ℝ
  L : ℝ
  U : ℝ
  n : ℕ
  R : ℝ
  num_paths : ℕ

namespace KIKOPutPricer

/-- `self.dt = T / n`. -/
noncomputable def dt (p : KikoParams) : ℝ := p.T / p.n

/-- `KIKOPutPricer._validate_parameters`, checks in source order.  Note it
checks only the barrier ordering relative to `S0`, `T > 0` and `n > 0`:
`sigma`, `r`, `K`, `R` and `num_paths` are not constrained. -/
noncomputable def validate_parameters (p : KikoParams) : Except String Unit :=
  if p.S0 ≤ p.L then
    .error "Lower knock-in barrier L must be less than the initial price S0"
  else if p.U ≤ p.S0 then
    .error "Upper knock-out barrier U must be greater than the initial price S0"
  else if p.T ≤ 0 then .error "Expiration time T must be greater than 0"
  else if p.n ≤ 0 then .error "Number of observations n must be greater than 0"
  else .ok ()

/-- One simulated path of `generate_sobol_paths` at spot `S0'` (the spot is a
parameter because the Delta computation re-runs the simulation at bumped
spots): `paths[:,0] = S0` and `paths[:,k+1] = S0 * exp(cumsum(drift +
diffusion * Z)[:,k])`.  `z i j` is the inverse-normal-transformed Sobol draw
for path `i`, step `j`; it depends only on the matrix dimensions, reflecting
that the Sobol generator is deterministic and unseeded. -/
noncomputable def path (p : KikoParams) (S0' : ℝ) (z : ℕ → ℕ → ℝ) (i : ℕ) : List ℝ :=
  S0' :: (List.range p.n).map fun k =>
    S0' * Real.exp (∑ j ∈ Finset.range (k + 1),
      ((p.r - 0.5 * p.sigma ^ 2) * dt p + p.sigma * Real.sqrt (dt p) * z i j))

/-- Index of the first observation at which the path reaches or exceeds the
upper barrier: `np.argmax(paths >= U, axis=1)` scans the whole row, initial
spot included, and returns the first `True` position. -/
noncomputable def first_knock_out (U : ℝ) : List ℝ → ℕ
  | [] => 0
  | x :: xs => if U ≤ x then 0 else first_knock_out U xs + 1

/-- Per-path payoff of `KIKOPutPricer.calculate_price` / `_calculate_payoff`:
knocked-out paths (any observation `>= U`) pay the rebate discounted from the
first knock-out index times `dt`; paths knocked in (any observation `<= L`)
but not knocked out pay the discounted terminal put payoff; all other paths
keep the initial `np.zeros` entry. -/
noncomputable def path_payoff (p : KikoParams) (path : List ℝ) : ℝ :=
  if ∃ x ∈ path, p.U ≤ x then
    p.R * Real.exp (-p.r * (first_knock_out p.U path * dt p))
  else if ∃ x ∈ path, x ≤ p.L then
    max (p.K - path.getLastD 0) 0 * Real.exp (-p.r * p.T)
  else 0

/-- Mean payoff over all simulated paths at spot `S0'`
(`KIKOPutPricer._calculate_payoff` followed by `np.mean`). -/
noncomputable def mean_payoff (p : KikoParams) (S0' : ℝ) (z : ℕ → ℕ → ℝ) : ℝ :=
  vecMean fun i : Fin p.num_paths => path_payoff p (path p S0' z i)

/-- Result dictionary of `KIKOPutPricer.calculate_price`. -/
structure KikoResult where
  price : ℝ
  conf_interval : ℝ × ℝ
  delta : ℝ
  status : String

/-- `KIKOPutPricer.calculate_price`: price, confidence interval and central
finite-difference Delta (re-simulations at `S0 ± 1%` use the same Sobol
draws `z`). -/
noncomputable def calculate_price (p : KikoParams) (z : ℕ → ℕ → ℝ) : KikoResult :=
  let payoff : Fin p.num_paths → ℝ := fun i => path_payoff p (path p p.S0 z i)
  let price := vecMean payoff
  let std := vecStd payoff
  let dS := p.S0 * 0.01
  let delta := (mean_payoff p (p.S0 + dS) z - mean_payoff p (p.S0 - dS) z) / (2 * dS)
  ⟨price,
    (price - 1.96 * std / Real.sqrt p.num_paths, price + 1.96 * std / Real.sqrt p.num_paths),
    delta, "success"⟩

end KIKOPutPricer

/-! ## Claim theorems -/

lemma bs_default_params_valid :
    BlackScholesPricer.validate_parameters ⟨100, 100, 1, 0.2, 0.05, 0, "call"⟩ =
      .ok () := by
  unfold BlackScholesPricer.validate_parameters
  rw [if_neg (by norm_num), if_neg (by norm_num), if_neg (by norm_num),
    if_neg (by norm_num), if_neg (by decide)]

/-- C4: for every parameter set accepted by the Black-Scholes validator, the
call price minus the put price equals `S*exp(-q*T) - K*exp(-r*T)` (put-call
parity); over the reals the identity is exact, hence in particular within any
floating tolerance. -/
theorem C4_put_call_parity (p : BSParams)
    (h : BlackScholesPricer.validate_parameters p = .ok ()) :
    BlackScholesPricer.call_value p - BlackScholesPricer.put_value p =
      p.S * Real.exp (-p.q * p.T) - p.K * Real.exp (-p.r * p.T) := by
  unfold BlackScholesPricer.call_value BlackScholesPricer.put_value
  have h1 := normCdf_add_neg (BlackScholesPricer.d1 p)
  have h2 := normCdf_add_neg (BlackScholesPricer.d2 p)
  linear_combination (p.S * Real.exp (-p.q * p.T)) * h1 -
    (p.K * Real.exp (-p.r * p.T)) * h2

/-- Witness for C4 at the default contract `S=K=100, T=1, sigma=0.2, r=0.05,
q=0`. -/
theorem C4_put_call_parity_witness :
    BlackScholesPricer.validate_parameters ⟨100, 100, 1, 0.2, 0.05, 0, "call"⟩ = .ok () ∧
    BlackScholesPricer.call_value ⟨100, 100, 1, 0.2, 0.05, 0, "call"⟩ -
        BlackScholesPricer.put_value ⟨100, 100, 1, 0.2, 0.05, 0, "call"⟩ =
      100 * Real.exp (-(0:ℝ) * 1) - 100 * Real.exp (-(0.05:ℝ) * 1) :=
  ⟨bs_default_params_valid, C4_put_call_parity _ bs_default_params_valid⟩

/-- C8: each Monte Carlo pricer is a pure function of its parameters and of
the deterministic draw stream.  The arithmetic Asian and basket pricers reseed
the generator (`np.random.seed(0)`) before drawing, so the result does not
depend on the incoming generator state `g₁`/`g₂`; the KIKO pricer's Sobol
draws carry no state at all.  Hence two invocations with identical parameters
return identical results in every field (price, confidence interval, delta,
status). -/
theorem C8_reproducibility :
    (∀ (p : AAParams) (stream : ℕ → Fin p.m → ℕ → ℝ) (g₁ g₂ : ℕ),
      ArithmeticAsianPricer.calculate_price p stream g₁ =
        ArithmeticAsianPricer.calculate_price p stream g₂) ∧
    (∀ (p : ABParams) (stream : ℕ → Fin p.m → Fin 2 → ℝ) (g₁ g₂ : ℕ),
      ArithmeticBasketPricer.calculate_price p stream g₁ =
        ArithmeticBasketPricer.calculate_price p stream g₂) ∧
    (∀ (p : KikoParams) (z : ℕ → ℕ → ℝ),
      KIKOPutPricer.calculate_price p z = KIKOPutPricer.calculate_price p z) :=
  ⟨fun _ _ _ _ => rfl, fun _ _ _ _ => rfl, fun _ _ => rfl⟩

/-- C9: a path that never reaches the upper barrier and never reaches the
lower barrier keeps the initial `np.zeros` payoff entry: its payoff is 0. -/
theorem C9_no_touch_zero_payoff (p : KikoParams) (path : List ℝ)
    (h : ∀ x ∈ path, x < p.U ∧ p.L < x) :
    KIKOPutPricer.path_payoff p path = 0 := by
  unfold KIKOPutPricer.path_payoff
  rw [if_neg, if_neg]
  · rintro ⟨x, hx, hxL⟩
    exact absurd hxL (not_le.mpr (h x hx).2)
  · rintro ⟨x, hx, hxU⟩
    exact absurd hxU (not_le.mpr (h x hx).1)

/-- Witness for C9: the path `[100, 110, 95]` stays inside the barriers
`L = 80`, `U = 120` and pays zero. -/
theorem C9_no_touch_zero_payoff_witness :
    (∀ x ∈ ([100, 110, 95] : List ℝ), x < (120 : ℝ) ∧ (80 : ℝ) < x) ∧
    KIKOPutPricer.path_payoff ⟨100, 0.2, 0.05, 1, 100, 80, 120, 50, 10, 1⟩
      [100, 110, 95] = 0 := by
  have h : ∀ x ∈ ([100, 110, 95] : List ℝ), x < (120 : ℝ) ∧ (80 : ℝ) < x := by
    intro x hx
    simp only [List.mem_cons, List.not_mem_nil, or_false] at hx
    rcases hx with rfl | rfl | rfl <;> norm_num
  exact ⟨h, C9_no_touch_zero_payoff ⟨100, 0.2, 0.05, 1, 100, 80, 120, 50, 10, 1⟩ _ h⟩

lemma first_knock_out_spec (U : ℝ) (l : List ℝ) (h : ∃ x ∈ l, U ≤ x) :
    (∀ j < KIKOPutPricer.first_knock_out U l, l.getD j 0 < U) ∧
      U ≤ l.getD (KIKOPutPricer.first_knock_out U l) 0 := by
  induction l with
  | nil => simp at h
  | cons x xs ih =>
    unfold KIKOPutPricer.first_knock_out
    by_cases hx : U ≤ x
    · rw [if_pos hx]
      exact ⟨fun j hj => absurd hj (Nat.not_lt_zero j), hx⟩
    · rw [if_neg hx]
      have hxs : ∃ y ∈ xs, U ≤ y := by
        rcases h with ⟨y, hy, hUy⟩
        rcases List.mem_cons.mp hy with rfl | hmem
        · exact absurd hUy hx
        · exact ⟨y, hmem, hUy⟩
      obtain ⟨ih1, ih2⟩ := ih hxs
      refine ⟨fun j hj => ?_, ih2⟩
      cases j with
      | zero => exact not_le.mp hx
      | succ j' => exact ih1 j' (Nat.succ_lt_succ_iff.mp hj)

/-- C3: on every path with some observation at or above the upper barrier `U`,
the payoff is the fixed rebate `R` discounted from the first such observation
index times the step size `dt = T/n` (not from maturity).  The theorem holds
for every such path, in particular for paths that also touch the lower
barrier `L`: the knock-in branch of the payoff is only reachable when no
knock-out occurred, so knock-out takes precedence.  The last two conjuncts
identify `first_knock_out` as the first index in scanning order whose price
reaches the barrier. -/
theorem C3_knock_out_payoff (p : KikoParams) (path : List ℝ)
    (h : ∃ x ∈ path, p.U ≤ x) :
    KIKOPutPricer.path_payoff p path =
      p.R * Real.exp (-p.r * (KIKOPutPricer.first_knock_out p.U path * KIKOPutPricer.dt p)) ∧
    (∀ j < KIKOPutPricer.first_knock_out p.U path, path.getD j 0 < p.U) ∧
    p.U ≤ path.getD (KIKOPutPricer.first_knock_out p.U path) 0 := by
  refine ⟨?_, first_knock_out_spec p.U path h⟩
  unfold KIKOPutPricer.path_payoff
  rw [if_pos h]

/-- Witness for C3: the path `[100, 125, 70, 90]` reaches `U = 120` at index 1
and also touches `L = 80` (at index 2), yet pays the rebate discounted from
index 1. -/
theorem C3_knock_out_payoff_witness :
    (∃ x ∈ ([100, 125, 70, 90] : List ℝ), (120 : ℝ) ≤ x) ∧
    (∃ x ∈ ([100, 125, 70, 90] : List ℝ), x ≤ (80 : ℝ)) ∧
    KIKOPutPricer.first_knock_out 120 [100, 125, 70, 90] = 1 ∧
    KIKOPutPricer.path_payoff ⟨100, 0.2, 0.05, 1, 100, 80, 120, 3, 10, 1⟩
        [100, 125, 70, 90] =
      10 * Real.exp (-(0.05 : ℝ) *
        (KIKOPutPricer.first_knock_out 120 [100, 125, 70, 90] *
          KIKOPutPricer.dt ⟨100, 0.2, 0.05, 1, 100, 80, 120, 3, 10, 1⟩)) := by
  have h : ∃ x ∈ ([100, 125, 70, 90] : List ℝ), (120 : ℝ) ≤ x :=
    ⟨125, by simp, by norm_num⟩
  have hfko : KIKOPutPricer.first_knock_out 120 [100, 125, 70, 90] = 1 := by
    unfold KIKOPutPricer.first_knock_out
    rw [if_neg (by norm_num : ¬(120 : ℝ) ≤ 100)]
    unfold KIKOPutPricer.first_knock_out
    rw [if_pos (by norm_num : (120 : ℝ) ≤ 125)]
  refine ⟨h, ⟨70, by simp, by norm_num⟩, hfko, ?_⟩
  exact (C3_knock_out_payoff ⟨100, 0.2, 0.05, 1, 100, 80, 120, 3, 10, 1⟩ _ h).1

/-- C10: when the validator's barrier ordering `L < S0 < U` holds, the first
entry of every generated path is exactly `S0`, which triggers neither barrier
condition; hence although the barrier scan covers the whole row including the
initial spot, on any knocked-out path the first knock-out index is at least 1
and the knock-out discount time is at least one step size `dt`. -/
theorem C10_initial_spot_never_knocks (p : KikoParams) (z : ℕ → ℕ → ℝ) (i : ℕ)
    (hL : p.L < p.S0) (hU : p.S0 < p.U) (hT : 0 < p.T) (hn : 0 < p.n) :
    (KIKOPutPricer.path p p.S0 z i).headD 0 = p.S0 ∧
    ¬(p.U ≤ (KIKOPutPricer.path p p.S0 z i).headD 0 ∨
        (KIKOPutPricer.path p p.S0 z i).headD 0 ≤ p.L) ∧
    ((∃ x ∈ KIKOPutPricer.path p p.S0 z i, p.U ≤ x) →
      1 ≤ KIKOPutPricer.first_knock_out p.U (KIKOPutPricer.path p p.S0 z i) ∧
      KIKOPutPricer.dt p ≤
        (KIKOPutPricer.first_knock_out p.U (KIKOPutPricer.path p p.S0 z i) : ℝ) *
          KIKOPutPricer.dt p) := by
  have hhead : (KIKOPutPricer.path p p.S0 z i).headD 0 = p.S0 := rfl
  refine ⟨hhead, ?_, ?_⟩
  · rw [hhead]
    push_neg
    exact ⟨hU, hL⟩
  · intro _
    have h1 : 1 ≤ KIKOPutPricer.first_knock_out p.U (KIKOPutPricer.path p p.S0 z i) := by
      show 1 ≤ KIKOPutPricer.first_knock_out p.U (p.S0 :: _)
      unfold KIKOPutPricer.first_knock_out
      rw [if_neg (not_le.mpr hU)]
      omega
    have hdt : 0 < KIKOPutPricer.dt p := by
      unfold KIKOPutPricer.dt
      exact div_pos hT (by exact_mod_cast hn)
    refine ⟨h1, le_mul_of_one_le_left hdt.le ?_⟩
    exact_mod_cast h1

/-- Witness for C10: a one-step path with `sigma = sqrt 2`, `r = 0`, `T = 1`,
draw `z = sqrt 2`, so the single post-initial observation is `100 * e ≥ 120`:
the path knocks out, at index 1, and the discount time is a full step. -/
theorem C10_initial_spot_never_knocks_witness :
    (∃ x ∈ KIKOPutPricer.path ⟨100, Real.sqrt 2, 0, 1, 100, 80, 120, 1, 10, 1⟩
        (100 : ℝ) (fun _ _ => Real.sqrt 2) 0, (120 : ℝ) ≤ x) ∧
    1 ≤ KIKOPutPricer.first_knock_out 120
        (KIKOPutPricer.path ⟨100, Real.sqrt 2, 0, 1, 100, 80, 120, 1, 10, 1⟩
          (100 : ℝ) (fun _ _ => Real.sqrt 2) 0) ∧
    KIKOPutPricer.dt ⟨100, Real.sqrt 2, 0, 1, 100, 80, 120, 1, 10, 1⟩ ≤
      (KIKOPutPricer.first_knock_out 120
          (KIKOPutPricer.path ⟨100, Real.sqrt 2, 0, 1, 100, 80, 120, 1, 10, 1⟩
            (100 : ℝ) (fun _ _ => Real.sqrt 2) 0) : ℝ) *
        KIKOPutPricer.dt ⟨100, Real.sqrt 2, 0, 1, 100, 80, 120, 1, 10, 1⟩ := by
  have hdt : KIKOPutPricer.dt ⟨100, Real.sqrt 2, 0, 1, 100, 80, 120, 1, 10, 1⟩ = 1 := by
    unfold KIKOPutPricer.dt
    norm_num
  have h2 : Real.sqrt 2 * Real.sqrt 2 = 2 := Real.mul_self_sqrt (by norm_num)
  have hsq : Real.sqrt 2 ^ 2 = 2 := Real.sq_sqrt (by norm_num)
  have hpath : KIKOPutPricer.path ⟨100, Real.sqrt 2, 0, 1, 100, 80, 120, 1, 10, 1⟩
      (100 : ℝ) (fun _ _ => Real.sqrt 2) 0 = [100, 100 * Real.exp 1] := by
    unfold KIKOPutPricer.path
    rw [show (⟨100, Real.sqrt 2, 0, 1, 100, 80, 120, 1, 10, 1⟩ : KikoParams).n = 1 from rfl]
    rw [show List.range 1 = [0] by decide, List.map_cons, List.map_nil]
    rw [show (0 : ℕ) + 1 = 1 from rfl, Finset.sum_range_one, hdt]
    norm_num [hsq, Real.sqrt_one]
  have hko : ∃ x ∈ KIKOPutPricer.path ⟨100, Real.sqrt 2, 0, 1, 100, 80, 120, 1, 10, 1⟩
      (100 : ℝ) (fun _ _ => Real.sqrt 2) 0, (120 : ℝ) ≤ x := by
    rw [hpath]
    refine ⟨100 * Real.exp 1, by simp, ?_⟩
    nlinarith [Real.exp_one_gt_d9]
  have hmain := (C10_initial_spot_never_knocks
    ⟨100, Real.sqrt 2, 0, 1, 100, 80, 120, 1, 10, 1⟩ (fun _ _ => Real.sqrt 2) 0
    (by norm_num) (by norm_num) (by norm_num) (by norm_num)).2.2 hko
  exact ⟨hko, hmain⟩

lemma bt_degenerate_valid :
    BinomialTreePricer.validate_parameters ⟨100, 100, 1, 0.2, 1, 1, "call"⟩ = .ok () := by
  unfold BinomialTreePricer.validate_parameters
  rw [if_neg (by norm_num), if_neg (by norm_num), if_neg (by norm_num),
    if_neg (by norm_num), if_neg (by norm_num), if_neg (by decide)]

/-- C2 counterexample: the parameter set `S=100, K=100, T=1, sigma=0.2, r=1,
n=1` passes validation (`r` is not validated at all), its up-move probability
`p = (exp(r*dt) - d)/(u - d)` exceeds 1, and `calculate_price` still returns
a price with status `success`: no error is surfaced. -/
theorem C2_counterexample :
    BinomialTreePricer.validate_parameters ⟨100, 100, 1, 0.2, 1, 1, "call"⟩ = .ok () ∧
    1 < BinomialTreePricer.prob ⟨100, 100, 1, 0.2, 1, 1, "call"⟩ ∧
    (BinomialTreePricer.calculate_price ⟨100, 100, 1, 0.2, 1, 1, "call"⟩).status =
      "success" := by
  refine ⟨bt_degenerate_valid, ?_, rfl⟩
  have hdt : BinomialTreePricer.delta_t ⟨100, 100, 1, 0.2, 1, 1, "call"⟩ = 1 := by
    unfold BinomialTreePricer.delta_t
    norm_num
  have hu : BinomialTreePricer.u ⟨100, 100, 1, 0.2, 1, 1, "call"⟩ = Real.exp 0.2 := by
    unfold BinomialTreePricer.u
    rw [hdt, Real.sqrt_one, mul_one]
  have h1u : 1 < Real.exp 0.2 := by
    rw [← Real.exp_zero]
    exact Real.exp_lt_exp.mpr (by norm_num)
  have hd : BinomialTreePricer.d ⟨100, 100, 1, 0.2, 1, 1, "call"⟩ = 1 / Real.exp 0.2 := by
    unfold BinomialTreePricer.d
    rw [hu]
  have hdu : BinomialTreePricer.d ⟨100, 100, 1, 0.2, 1, 1, "call"⟩ <
      BinomialTreePricer.u ⟨100, 100, 1, 0.2, 1, 1, "call"⟩ := by
    rw [hd, hu]
    calc 1 / Real.exp 0.2 < 1 := by
          rw [div_lt_one (lt_trans one_pos h1u)]
          exact h1u
      _ < Real.exp 0.2 := h1u
  have hnum : BinomialTreePricer.u ⟨100, 100, 1, 0.2, 1, 1, "call"⟩ <
      Real.exp (1 * BinomialTreePricer.delta_t ⟨100, 100, 1, 0.2, 1, 1, "call"⟩) := by
    rw [hdt, mul_one, hu]
    exact Real.exp_lt_exp.mpr (by norm_num)
  unfold BinomialTreePricer.prob
  rw [one_lt_div (sub_pos.mpr hdu)]
  have : (⟨100, 100, 1, 0.2, 1, 1, "call"⟩ : BTParams).r = 1 := rfl
  rw [this]
  linarith

/-- C2 (amended): `calculate_price` performs no range check on the risk-neutral
probability: for every parameter set accepted by validation — including those
whose `p` lies outside `(0,1)` — it returns the backward-induction price with
status `success`, never an error. -/
theorem C2_amended_no_prob_check (p : BTParams)
    (h : BinomialTreePricer.validate_parameters p = .ok ()) :
    (BinomialTreePricer.calculate_price p).status = "success" := rfl

/-- Witness for the amended C2 at the degenerate parameter set of the
counterexample. -/
theorem C2_amended_no_prob_check_witness :
    BinomialTreePricer.validate_parameters ⟨100, 100, 1, 0.2, 1, 1, "call"⟩ = .ok () ∧
    (BinomialTreePricer.calculate_price ⟨100, 100, 1, 0.2, 1, 1, "call"⟩).status =
      "success" :=
  ⟨bt_degenerate_valid, C2_amended_no_prob_check _ bt_degenerate_valid⟩

lemma kiko_negative_sigma_accepted :
    KIKOPutPricer.validate_parameters
      ⟨100, -0.2, 0.05, 1, 100, 80, 120, 50, 10, 100000⟩ = .ok () := by
  unfold KIKOPutPricer.validate_parameters
  rw [if_neg (by norm_num), if_neg (by norm_num), if_neg (by norm_num),
    if_neg (by norm_num)]

/-- C5 counterexample: the KIKO pricer's validator accepts a non-positive
volatility (`sigma = -0.2`): construction does not fail, contradicting the
claim that every pricer entry point rejects non-positive volatility at
construction. -/
theorem C5_counterexample :
    ((-0.2 : ℝ) ≤ 0) ∧
    KIKOPutPricer.validate_parameters
      ⟨100, -0.2, 0.05, 1, 100, 80, 120, 50, 10, 100000⟩ = .ok () :=
  ⟨by norm_num, kiko_negative_sigma_accepted⟩

lemma bs_reject_nonpositive (p : BSParams) (h : p.S ≤ 0 ∨ p.sigma ≤ 0 ∨ p.T ≤ 0) :
    ∃ msg, BlackScholesPricer.validate_parameters p = .error msg := by
  unfold BlackScholesPricer.validate_parameters
  split_ifs with h1 h2 h3 h4 h5
  any_goals exact ⟨_, rfl⟩
  rcases h with h | h | h
  exacts [absurd h h1, absurd h h4, absurd h h3]

lemma ga_reject_nonpositive (p : GAParams) (h : p.S ≤ 0 ∨ p.sigma ≤ 0 ∨ p.T ≤ 0) :
    ∃ msg, GeometricAsianPricer.validate_parameters p = .error msg := by
  unfold GeometricAsianPricer.validate_parameters
  split_ifs with h1 h2 h3
  any_goals exact ⟨_, rfl⟩
  obtain ⟨hS, _, hT, hsig, _⟩ := h1
  rcases h with h | h | h <;> linarith

lemma aa_reject_nonpositive (p : AAParams) (h : p.S0 ≤ 0 ∨ p.sigma ≤ 0 ∨ p.T ≤ 0) :
    ∃ msg, ArithmeticAsianPricer.validate_parameters p = .error msg := by
  unfold ArithmeticAsianPricer.validate_parameters
  split_ifs with h1 h2 h3 h4 h5 h6 h7 h8
  any_goals exact ⟨_, rfl⟩
  rcases h with h | h | h
  exacts [absurd h h1, absurd h h2, absurd h h3]

lemma bt_reject_nonpositive (p : BTParams) (h : p.S ≤ 0 ∨ p.sigma ≤ 0 ∨ p.T ≤ 0) :
    ∃ msg, BinomialTreePricer.validate_parameters p = .error msg := by
  unfold BinomialTreePricer.validate_parameters
  split_ifs with h1 h2 h3 h4 h5 h6
  any_goals exact ⟨_, rfl⟩
  rcases h with h | h | h
  exacts [absurd h h1, absurd h h4, absurd h h3]

lemma gb_reject_nonpositive (p : GBParams)
    (h : p.S_1 ≤ 0 ∨ p.S_2 ≤ 0 ∨ p.sigma_1 ≤ 0 ∨ p.sigma_2 ≤ 0 ∨ p.T ≤ 0) :
    ∃ msg, GeometricBasketPricer.validate_parameters p = .error msg := by
  unfold GeometricBasketPricer.validate_parameters
  split_ifs with h1 h2 h3 h4 h5 h6 h7 h8
  any_goals exact ⟨_, rfl⟩
  rcases h with h | h | h | h | h
  exacts [absurd h h1, absurd h h2, absurd h h5, absurd h h6, absurd h h4]

lemma ab_reject_nonpositive (p : ABParams)
    (h : p.S0_1 ≤ 0 ∨ p.S0_2 ≤ 0 ∨ p.sigma_1 ≤ 0 ∨ p.sigma_2 ≤ 0 ∨ p.T ≤ 0) :
    ∃ msg, ArithmeticBasketPricer.validate_parameters p = .error msg := by
  unfold ArithmeticBasketPricer.validate_parameters
  split_ifs with h1 h2 h3 h4 h5 h6 h7 h8
  any_goals exact ⟨_, rfl⟩
  rcases h with h | h | h | h | h
  exacts [absurd (Or.inl h) h1, absurd (Or.inr h) h1, absurd (Or.inl h) h2,
    absurd (Or.inr h) h2, absurd h h4]

/-- C5 (amended): the European (Black-Scholes), geometric Asian, arithmetic
Asian, binomial tree, geometric basket and arithmetic basket validators all
reject a non-positive spot, volatility or maturity at construction with a
descriptive error; the KIKO validator checks only the barrier ordering
`L < S0 < U`, `T > 0` and `n > 0`, so a KIKO pricer with non-positive
volatility passes construction. -/
theorem C5_amended_validation :
    (∀ p : BSParams, p.S ≤ 0 ∨ p.sigma ≤ 0 ∨ p.T ≤ 0 →
      ∃ msg, BlackScholesPricer.validate_parameters p = .error msg) ∧
    (∀ p : GAParams, p.S ≤ 0 ∨ p.sigma ≤ 0 ∨ p.T ≤ 0 →
      ∃ msg, GeometricAsianPricer.validate_parameters p = .error msg) ∧
    (∀ p : AAParams, p.S0 ≤ 0 ∨ p.sigma ≤ 0 ∨ p.T ≤ 0 →
      ∃ msg, ArithmeticAsianPricer.validate_parameters p = .error msg) ∧
    (∀ p : BTParams, p.S ≤ 0 ∨ p.sigma ≤ 0 ∨ p.T ≤ 0 →
      ∃ msg, BinomialTreePricer.validate_parameters p = .error msg) ∧
    (∀ p : GBParams,
      p.S_1 ≤ 0 ∨ p.S_2 ≤ 0 ∨ p.sigma_1 ≤ 0 ∨ p.sigma_2 ≤ 0 ∨ p.T ≤ 0 →
      ∃ msg, GeometricBasketPricer.validate_parameters p = .error msg) ∧
    (∀ p : ABParams,
      p.S0_1 ≤ 0 ∨ p.S0_2 ≤ 0 ∨ p.sigma_1 ≤ 0 ∨ p.sigma_2 ≤ 0 ∨ p.T ≤ 0 →
      ∃ msg, ArithmeticBasketPricer.validate_parameters p = .error msg) ∧
    KIKOPutPricer.validate_parameters
      ⟨100, -0.2, 0.05, 1, 100, 80, 120, 50, 10, 100000⟩ = .ok () :=
  ⟨bs_reject_nonpositive, ga_reject_nonpositive, aa_reject_nonpositive,
    bt_reject_nonpositive, gb_reject_nonpositive, ab_reject_nonpositive,
    kiko_negative_sigma_accepted⟩

/-- Witness for the amended C5: a Black-Scholes pricer with negative spot is
rejected, while the KIKO pricer with negative volatility is accepted. -/
theorem C5_amended_validation_witness :
    (∃ msg, BlackScholesPricer.validate_parameters
      ⟨-1, 100, 1, 0.2, 0.05, 0, "call"⟩ = .error msg) ∧
    KIKOPutPricer.validate_parameters
      ⟨100, -0.2, 0.05, 1, 100, 80, 120, 50, 10, 100000⟩ = .ok () :=
  ⟨C5_amended_validation.1 _ (Or.inl (by norm_num)),
    C5_amended_validation.2.2.2.2.2.2⟩

lemma exp_fifty_big : (1e14 : ℝ) < Real.exp 50 := by
  have h1 : (2.7 : ℝ) < Real.exp 1 := by
    have := Real.exp_one_gt_d9
    linarith
  have h2 : Real.exp 50 = Real.exp 1 ^ 50 := by
    rw [← Real.exp_nat_mul]
    norm_num
  calc (1e14 : ℝ) < 2.7 ^ 50 := by norm_num
    _ < Real.exp 1 ^ 50 := by
        gcongr
    _ = Real.exp 50 := h2.symm

lemma exp_neg_fifty_small : Real.exp (-50) < 1e-14 := by
  have h := exp_fifty_big
  have hpos : (0 : ℝ) < 1e14 := by norm_num
  rw [Real.exp_neg]
  calc (Real.exp 50)⁻¹ < ((1e14 : ℝ))⁻¹ := by
        apply inv_lt_inv_of_lt hpos h
    _ = 1e-14 := by norm_num

lemma normPdf_ten_small : normPdf 10 < 1e-14 := by
  have hs : (1 : ℝ) ≤ Real.sqrt (2 * Real.pi) := by
    have h := Real.sqrt_le_sqrt (show (1 : ℝ) ≤ 2 * Real.pi by nlinarith [Real.pi_gt_three])
    rwa [Real.sqrt_one] at h
  have h1 : normPdf 10 ≤ Real.exp (-(10 ^ 2) / 2) :=
    div_le_self (Real.exp_pos _).le hs
  have h2 : Real.exp (-((10 : ℝ) ^ 2) / 2) = Real.exp (-50) := by norm_num
  calc normPdf 10 ≤ Real.exp (-(10 ^ 2) / 2) := h1
    _ = Real.exp (-50) := h2
    _ < 1e-14 := exp_neg_fifty_small

lemma iv_d1_deg : ImpliedVolatility.d1 ⟨100, 100, 1, 50, 0, some 5, "call"⟩ 10 = 10 := by
  unfold ImpliedVolatility.d1
  norm_num [Real.log_one, Real.sqrt_one]

lemma iv_d2_deg : ImpliedVolatility.d2 ⟨100, 100, 1, 50, 0, some 5, "call"⟩ 10 = 0 := by
  unfold ImpliedVolatility.d2
  rw [iv_d1_deg]
  norm_num [Real.sqrt_one]

lemma iv_vega_deg :
    ImpliedVolatility.vega ⟨100, 100, 1, 50, 0, some 5, "call"⟩ 10 < 1e-12 := by
  unfold ImpliedVolatility.vega
  rw [iv_d1_deg]
  norm_num [Real.sqrt_one, Real.exp_zero]
  nlinarith [normPdf_ten_small, normPdf_pos 10]

lemma iv_price_deg : 49 ≤ ImpliedVolatility.price ⟨100, 100, 1, 50, 0, some 5, "call"⟩ 10 := by
  unfold ImpliedVolatility.price
  rw [if_pos rfl, iv_d1_deg, iv_d2_deg, normCdf_zero]
  have hΦ10 : 1 / 2 ≤ normCdf 10 := by
    have h := normCdf_mono (show (0 : ℝ) ≤ 10 by norm_num)
    rwa [normCdf_zero] at h
  have hexp : Real.exp (-(50 : ℝ) * 1) < 1e-14 := by
    rw [show (-(50 : ℝ) * 1) = -50 by norm_num]
    exact exp_neg_fifty_small
  have hexp0 : (0 : ℝ) < Real.exp (-(50 : ℝ) * 1) := Real.exp_pos _
  have hq : Real.exp (-(0 : ℝ) * 1) = 1 := by norm_num
  rw [hq]
  nlinarith

lemma iv_not_conv_deg :
    ¬(|ImpliedVolatility.price ⟨100, 100, 1, 50, 0, some 5, "call"⟩ 10 - 5| < 1e-6) := by
  intro habs
  have h1 := iv_price_deg
  have h2 := le_abs_self
    (ImpliedVolatility.price ⟨100, 100, 1, 50, 0, some 5, "call"⟩ 10 - 5)
  linarith

lemma iv_sigma0_deg :
    ImpliedVolatility.initial_sigma ⟨100, 100, 1, 50, 0, some 5, "call"⟩ = 10 := by
  unfold ImpliedVolatility.initial_sigma
  norm_num [Real.log_one]
  rw [show (100 : ℝ) = 10 ^ 2 by norm_num]
  exact Real.sqrt_sq (by norm_num)

/-- C6 counterexample: at `S=K=100, T=1, r=50, q=0, premium=5` (a call), the
Manaster-Koehler initial guess is `sigma = 10`, where vega underflows the
`1e-12` guard while the price is still far from the premium; the solver
`break`s out of the loop on the very first iteration, yet the returned result
is `{implied_vol: 10, iterations: 100000, status: 'max_iter_reached'}` — the
same status and iteration count that ordinary iteration-cap exhaustion
reports, so the caller cannot distinguish the vega-underflow termination from
cap exhaustion. -/
theorem C6_counterexample :
    ImpliedVolatility.initial_sigma ⟨100, 100, 1, 50, 0, some 5, "call"⟩ = 10 ∧
    ImpliedVolatility.vega ⟨100, 100, 1, 50, 0, some 5, "call"⟩ 10 < 1e-12 ∧
    ¬(|ImpliedVolatility.price ⟨100, 100, 1, 50, 0, some 5, "call"⟩ 10 - 5| < 1e-6) ∧
    ImpliedVolatility.calculate_implied_vol ⟨100, 100, 1, 50, 0, some 5, "call"⟩
        100000 1e-6 =
      ⟨some 10, 100000, "max_iter_reached"⟩ := by
  refine ⟨iv_sigma0_deg, iv_vega_deg, iv_not_conv_deg, ?_⟩
  show ImpliedVolatility.newton_loop ⟨100, 100, 1, 50, 0, some 5, "call"⟩ 5 1e-6 100000
    (ImpliedVolatility.initial_sigma ⟨100, 100, 1, 50, 0, some 5, "call"⟩) 0 100000 = _
  rw [iv_sigma0_deg, show (100000 : ℕ) = 99999 + 1 from rfl]
  unfold ImpliedVolatility.newton_loop
  rw [if_neg iv_not_conv_deg, if_pos iv_vega_deg]

/-- C6 (amended): if during the Newton-Raphson iteration vega falls below the
`1e-12` underflow guard before the price is within tolerance of the premium,
the solver terminates early and returns status `max_iter_reached` with
`iterations = max_iter` — distinguishable from a converged result and from an
error, but identical to the report of ordinary iteration-cap exhaustion. -/
theorem C6_amended_vega_break (p : IVParams) (premium tol : ℝ) (max_iter : ℕ)
    (sigma : ℝ) (i fuel : ℕ)
    (hconv : ¬(|ImpliedVolatility.price p sigma - premium| < tol))
    (hvega : ImpliedVolatility.vega p sigma < 1e-12) :
    ImpliedVolatility.newton_loop p premium tol max_iter sigma i (fuel + 1) =
      ⟨some sigma, max_iter, "max_iter_reached"⟩ := by
  unfold ImpliedVolatility.newton_loop
  rw [if_neg hconv, if_pos hvega]

/-- Witness for the amended C6 at the degenerate contract of the
counterexample. -/
theorem C6_amended_vega_break_witness :
    ¬(|ImpliedVolatility.price ⟨100, 100, 1, 50, 0, some 5, "call"⟩ 10 - 5| < 1e-6) ∧
    ImpliedVolatility.vega ⟨100, 100, 1, 50, 0, some 5, "call"⟩ 10 < 1e-12 ∧
    ImpliedVolatility.newton_loop ⟨100, 100, 1, 50, 0, some 5, "call"⟩ 5 1e-6 100000
        10 0 (99999 + 1) =
      ⟨some 10, 100000, "max_iter_reached"⟩ :=
  ⟨iv_not_conv_deg, iv_vega_deg,
    C6_amended_vega_break ⟨100, 100, 1, 50, 0, some 5, "call"⟩ 5 1e-6 100000 10 0 99999
      iv_not_conv_deg iv_vega_deg⟩

lemma vecMean_adjust {m : ℕ} (hm : (m : ℝ) ≠ 0) (v w : Fin m → ℝ) (β c : ℝ) :
    vecMean (fun i => v i - β * (w i - c)) = vecMean v - β * (vecMean w - c) := by
  unfold vecMean
  rw [Finset.sum_sub_distrib, ← Finset.mul_sum, Finset.sum_sub_distrib,
    Finset.sum_const, Finset.card_univ, Fintype.card_fin, nsmul_eq_mul]
  field_simp

lemma sum_sq_sub_beta_le {m : ℕ} (x y : Fin m → ℝ) (hy : (∑ i, y i ^ 2) ≠ 0) :
    ∑ i, (x i - ((∑ j, x j * y j) / (∑ j, y j ^ 2)) * y i) ^ 2 ≤ ∑ i, x i ^ 2 := by
  have hSypos : 0 < ∑ i, y i ^ 2 :=
    lt_of_le_of_ne (Finset.sum_nonneg fun i _ => sq_nonneg _) (Ne.symm hy)
  have hexp : ∑ i, (x i - ((∑ j, x j * y j) / (∑ j, y j ^ 2)) * y i) ^ 2 =
      (∑ i, x i ^ 2) -
        2 * ((∑ j, x j * y j) / (∑ j, y j ^ 2)) * (∑ j, x j * y j) +
        ((∑ j, x j * y j) / (∑ j, y j ^ 2)) ^ 2 * (∑ j, y j ^ 2) := by
    rw [Finset.sum_congr rfl fun i _ => show
      (x i - ((∑ j, x j * y j) / (∑ j, y j ^ 2)) * y i) ^ 2 =
        x i ^ 2 - 2 * ((∑ j, x j * y j) / (∑ j, y j ^ 2)) * (x i * y i) +
          ((∑ j, x j * y j) / (∑ j, y j ^ 2)) ^ 2 * y i ^ 2 from by ring]
    rw [Finset.sum_add_distrib, Finset.sum_sub_distrib, ← Finset.mul_sum, ← Finset.mul_sum]
  rw [hexp]
  have h2 : ((∑ j, x j * y j) / (∑ j, y j ^ 2)) ^ 2 * (∑ j, y j ^ 2) =
      (∑ j, x j * y j) ^ 2 / (∑ j, y j ^ 2) := by
    field_simp
    ring
  have h3 : 2 * ((∑ j, x j * y j) / (∑ j, y j ^ 2)) * (∑ j, x j * y j) =
      2 * ((∑ j, x j * y j) ^ 2 / (∑ j, y j ^ 2)) := by
    field_simp
    ring
  rw [h2, h3]
  have h4 : 0 ≤ (∑ j, x j * y j) ^ 2 / (∑ j, y j ^ 2) :=
    div_nonneg (sq_nonneg _) hSypos.le
  linarith

/-- C7: the control-variate adjustment of the arithmetic Asian and basket
pricers — `adjusted = payoff - beta * (geo_payoff - geo_price)` with
`beta = Cov(payoff, geo_payoff) / Var(geo_payoff)` taken from `np.cov` — has
population variance (`np.std ** 2`) at most that of the raw payoff vector,
whenever the two payoff vectors are positively correlated and the analog's
sample variance is nonzero.  `v` is the raw payoff vector, `w` the geometric
analog payoff vector and `c` the analytic price of the analog. -/
theorem C7_control_variate_variance_reduction (m : ℕ) (v w : Fin m → ℝ) (c : ℝ)
    (hpos : 0 < vecCovSample v w) (hne : vecCovSample w w ≠ 0) :
    vecVarPop (fun i => v i - (vecCovSample v w / vecCovSample w w) * (w i - c)) ≤
      vecVarPop v := by
  have hsq : (∑ i, (w i - vecMean w) * (w i - vecMean w)) =
      ∑ i, (w i - vecMean w) ^ 2 :=
    Finset.sum_congr rfl fun i _ => (pow_two _).symm
  have hm0 : m ≠ 0 := by
    rintro rfl
    exact hne (by unfold vecCovSample; simp)
  have hmR : ((m : ℝ)) ≠ 0 := Nat.cast_ne_zero.mpr hm0
  have hmpos : (0 : ℝ) < m := by exact_mod_cast Nat.pos_of_ne_zero hm0
  have hm1 : (m : ℝ) - 1 ≠ 0 := fun h0 => hne (by unfold vecCovSample; rw [h0, div_zero])
  have hSyne : (∑ i, (w i - vecMean w) ^ 2) ≠ 0 := by
    intro h0
    apply hne
    unfold vecCovSample
    rw [hsq, h0, zero_div]
  have hbeta : vecCovSample v w / vecCovSample w w =
      (∑ i, (v i - vecMean v) * (w i - vecMean w)) / (∑ i, (w i - vecMean w) ^ 2) := by
    unfold vecCovSample
    rw [hsq]
    rcases eq_or_ne (∑ i, (w i - vecMean w) ^ 2) 0 with h0 | h0
    · rw [h0]
      simp
    · field_simp
  rw [hbeta]
  unfold vecVarPop
  rw [vecMean_adjust hmR]
  rw [Finset.sum_congr rfl fun i _ => show
    (v i - (∑ i, (v i - vecMean v) * (w i - vecMean w)) / (∑ i, (w i - vecMean w) ^ 2) *
          (w i - c) -
        (vecMean v - (∑ i, (v i - vecMean v) * (w i - vecMean w)) /
            (∑ i, (w i - vecMean w) ^ 2) * (vecMean w - c))) ^ 2 =
      ((v i - vecMean v) - (∑ i, (v i - vecMean v) * (w i - vecMean w)) /
          (∑ i, (w i - vecMean w) ^ 2) * (w i - vecMean w)) ^ 2 from by ring]
  rw [div_le_div_right hmpos]
  exact sum_sq_sub_beta_le (fun i => v i - vecMean v) (fun i => w i - vecMean w) hSyne

/-- Witness for C7 on the two-path vectors `payoff = (1, 3)`,
`geo_payoff = (0, 2)` with analytic price `5`: sample covariance is `2 > 0`,
the analog's sample variance is `2 ≠ 0`, and the adjusted vector is constant,
so its variance `0` is at most `1`. -/
theorem C7_control_variate_variance_reduction_witness :
    (0 : ℝ) < vecCovSample ![1, 3] ![0, 2] ∧
    vecCovSample ![(0 : ℝ), 2] ![0, 2] ≠ 0 ∧
    vecVarPop (fun i => (![1, 3] : Fin 2 → ℝ) i -
      (vecCovSample ![1, 3] ![0, 2] / vecCovSample ![(0 : ℝ), 2] ![0, 2]) *
        ((![0, 2] : Fin 2 → ℝ) i - 5)) ≤ vecVarPop ![1, 3] := by
  have h1 : (0 : ℝ) < vecCovSample ![1, 3] ![0, 2] := by
    unfold vecCovSample vecMean
    norm_num [Fin.sum_univ_two]
  have h2 : vecCovSample ![(0 : ℝ), 2] ![0, 2] ≠ 0 := by
    unfold vecCovSample vecMean
    norm_num [Fin.sum_univ_two]
  exact ⟨h1, h2, C7_control_variate_variance_reduction 2 ![1, 3] ![0, 2] 5 h1 h2⟩

lemma continuous_normPdf : Continuous normPdf :=
  (Real.continuous_exp.comp ((continuous_pow 2).neg.div_const 2)).div_const _

lemma normCdf_eq_add_integral (x : ℝ) :
    normCdf x = normCdf 0 + ∫ t in (0 : ℝ)..x, normPdf t := by
  have h : (∫ t in Set.Iic x, normPdf t) - (∫ t in Set.Iic (0 : ℝ), normPdf t) =
      ∫ t in (0 : ℝ)..x, normPdf t :=
    intervalIntegral.integral_Iic_sub_Iic integrable_normPdf.integrableOn
      integrable_normPdf.integrableOn
  unfold normCdf
  linarith

lemma hasDerivAt_normCdf (x : ℝ) : HasDerivAt normCdf (normPdf x) x := by
  have h : HasDerivAt (fun u => ∫ t in (0 : ℝ)..u, normPdf t) (normPdf x) x :=
    intervalIntegral.integral_hasDerivAt_right
      integrable_normPdf.intervalIntegrable
      (continuous_normPdf.stronglyMeasurableAtFilter _ _)
      continuous_normPdf.continuousAt
  exact (h.const_add (normCdf 0)).congr_of_eventuallyEq
    (Filter.Eventually.of_forall fun u => normCdf_eq_add_integral u)

lemma normCdf_pos (x : ℝ) : 0 < normCdf x := by
  have hint : 0 < ∫ t in (x - 1)..x, normPdf t := by
    apply intervalIntegral.intervalIntegral_pos_of_pos_on
      integrable_normPdf.intervalIntegrable
      (fun t _ => normPdf_pos t)
    linarith
  have hdiff : normCdf x - normCdf (x - 1) = ∫ t in (x - 1)..x, normPdf t :=
    intervalIntegral.integral_Iic_sub_Iic integrable_normPdf.integrableOn
      integrable_normPdf.integrableOn
  have h0 := normCdf_nonneg (x - 1)
  linarith

/-- The shared closed-form evaluation of the geometric pricers at `S = K`,
`T = 1`, effective volatility `a`, as a function of the effective drift. -/
noncomputable def geoForm (S a : ℝ) (μ : ℝ) : ℝ :=
  S * Real.exp μ * normCdf ((μ + a ^ 2 / 2) / a) - S * normCdf ((μ - a ^ 2 / 2) / a)

lemma exp_mul_normPdf (a μ : ℝ) (ha : a ≠ 0) :
    Real.exp μ * normPdf ((μ + a ^ 2 / 2) / a) = normPdf ((μ - a ^ 2 / 2) / a) := by
  unfold normPdf
  have harg : μ + -(((μ + a ^ 2 / 2) / a) ^ 2) / 2 = -(((μ - a ^ 2 / 2) / a) ^ 2) / 2 := by
    field_simp
    ring
  calc Real.exp μ * (Real.exp (-(((μ + a ^ 2 / 2) / a) ^ 2) / 2) / Real.sqrt (2 * Real.pi))
      = Real.exp (μ + -(((μ + a ^ 2 / 2) / a) ^ 2) / 2) / Real.sqrt (2 * Real.pi) := by
        rw [Real.exp_add]
        ring
    _ = Real.exp (-(((μ - a ^ 2 / 2) / a) ^ 2) / 2) / Real.sqrt (2 * Real.pi) := by
        rw [harg]

lemma hasDerivAt_geoForm (S a μ : ℝ) (ha : 0 < a) :
    HasDerivAt (geoForm S a) (S * Real.exp μ * normCdf ((μ + a ^ 2 / 2) / a)) μ := by
  have hd1 : HasDerivAt (fun t : ℝ => (t + a ^ 2 / 2) / a) (1 / a) μ :=
    ((hasDerivAt_id μ).add_const _).div_const a
  have hd2 : HasDerivAt (fun t : ℝ => (t - a ^ 2 / 2) / a) (1 / a) μ :=
    ((hasDerivAt_id μ).sub_const _).div_const a
  have hc1 : HasDerivAt (fun t : ℝ => normCdf ((t + a ^ 2 / 2) / a))
      (normPdf ((μ + a ^ 2 / 2) / a) * (1 / a)) μ :=
    (hasDerivAt_normCdf _).comp μ hd1
  have hc2 : HasDerivAt (fun t : ℝ => normCdf ((t - a ^ 2 / 2) / a))
      (normPdf ((μ - a ^ 2 / 2) / a) * (1 / a)) μ :=
    (hasDerivAt_normCdf _).comp μ hd2
  have hexp : HasDerivAt (fun t : ℝ => S * Real.exp t) (S * Real.exp μ) μ :=
    (Real.hasDerivAt_exp μ).const_mul S
  have hfull := (hexp.mul hc1).sub (hc2.const_mul S)
  have hid := exp_mul_normPdf a μ ha.ne'
  have heq : S * Real.exp μ * normCdf ((μ + a ^ 2 / 2) / a) +
        S * Real.exp μ * (normPdf ((μ + a ^ 2 / 2) / a) * (1 / a)) -
        S * (normPdf ((μ - a ^ 2 / 2) / a) * (1 / a)) =
      S * Real.exp μ * normCdf ((μ + a ^ 2 / 2) / a) := by
    linear_combination (S / a) * hid
  exact heq ▸ hfull

lemma geoForm_strictMono (S a : ℝ) (hS : 0 < S) (ha : 0 < a) :
    StrictMono (geoForm S a) := by
  apply strictMono_of_deriv_pos
  intro x
  rw [(hasDerivAt_geoForm S a x ha).deriv]
  have := normCdf_pos ((x + a ^ 2 / 2) / a)
  positivity

lemma ga2_sigma_sq :
    GeometricAsianPricer.sigma_hat ⟨100, 100, 1, 0.2, 0.05, 2, "call"⟩ ^ 2 = 1 / 40 := by
  show ((0.2 : ℝ) * Real.sqrt ((((2 : ℕ) : ℝ) + 1) * (2 * ((2 : ℕ) : ℝ) + 1) /
    (6 * ((2 : ℕ) : ℝ) ^ 2))) ^ 2 = 1 / 40
  rw [mul_pow, Real.sq_sqrt (by norm_num : (0 : ℝ) ≤ (((2 : ℕ) : ℝ) + 1) *
    (2 * ((2 : ℕ) : ℝ) + 1) / (6 * ((2 : ℕ) : ℝ) ^ 2))]
  norm_num

lemma ga2_sigma_pos :
    0 < GeometricAsianPricer.sigma_hat ⟨100, 100, 1, 0.2, 0.05, 2, "call"⟩ := by
  show 0 < (0.2 : ℝ) * Real.sqrt ((((2 : ℕ) : ℝ) + 1) * (2 * ((2 : ℕ) : ℝ) + 1) /
    (6 * ((2 : ℕ) : ℝ) ^ 2))
  apply mul_pos (by norm_num)
  exact Real.sqrt_pos.mpr (by norm_num)

lemma ga2_miu :
    GeometricAsianPricer.miu_hat ⟨100, 100, 1, 0.2, 0.05, 2, "call"⟩ = 7 / 200 := by
  unfold GeometricAsianPricer.miu_hat
  rw [ga2_sigma_sq]
  show ((5e-2 : ℝ) - 0.5 * (0.2 : ℝ) ^ 2) * (((2 : ℕ) : ℝ) + 1) / (2 * ((2 : ℕ) : ℝ)) +
    0.5 * (1 / 40) = 7 / 200
  norm_num

lemma aa2_sigma_eq :
    GeometricAsianPricer.sigma_hat ⟨100, 100, 1, 0.2, 0.05, 2, "call"⟩ =
      ArithmeticAsianPricer.sigma_g
        ⟨100, 0.2, 0.05, 1, 100, 2, "call", 100000, "Geometric Asian"⟩ := rfl

lemma aa2_mu :
    ArithmeticAsianPricer.mu_g
      ⟨100, 0.2, 0.05, 1, 100, 2, "call", 100000, "Geometric Asian"⟩ = 17 / 400 := by
  unfold ArithmeticAsianPricer.mu_g
  rw [show ArithmeticAsianPricer.sigma_g
      ⟨100, 0.2, 0.05, 1, 100, 2, "call", 100000, "Geometric Asian"⟩ ^ 2 = 1 / 40 from
    aa2_sigma_eq ▸ ga2_sigma_sq]
  show (5e-2 : ℝ) - 0.5 * (0.2 : ℝ) ^ 2 + 0.5 * (1 / 40) = 17 / 400
  norm_num

lemma ga2_d1 :
    GeometricAsianPricer.d1_hat ⟨100, 100, 1, 0.2, 0.05, 2, "call"⟩ =
      (7 / 200 + GeometricAsianPricer.sigma_hat ⟨100, 100, 1, 0.2, 0.05, 2, "call"⟩ ^ 2 / 2) /
        GeometricAsianPricer.sigma_hat ⟨100, 100, 1, 0.2, 0.05, 2, "call"⟩ := by
  unfold GeometricAsianPricer.d1_hat
  rw [ga2_miu]
  show (Real.log ((100 : ℝ) / 100) +
      (7 / 200 + 0.5 * GeometricAsianPricer.sigma_hat ⟨100, 100, 1, 0.2, 0.05, 2, "call"⟩ ^ 2) * 1) /
    (GeometricAsianPricer.sigma_hat ⟨100, 100, 1, 0.2, 0.05, 2, "call"⟩ * Real.sqrt 1) = _
  rw [Real.sqrt_one, mul_one, mul_one, show Real.log ((100 : ℝ) / 100) = 0 by norm_num,
    zero_add]
  congr 1
  ring

lemma ga2_d2 :
    GeometricAsianPricer.d2_hat ⟨100, 100, 1, 0.2, 0.05, 2, "call"⟩ =
      (7 / 200 - GeometricAsianPricer.sigma_hat ⟨100, 100, 1, 0.2, 0.05, 2, "call"⟩ ^ 2 / 2) /
        GeometricAsianPricer.sigma_hat ⟨100, 100, 1, 0.2, 0.05, 2, "call"⟩ := by
  unfold GeometricAsianPricer.d2_hat
  rw [ga2_d1]
  show _ - GeometricAsianPricer.sigma_hat ⟨100, 100, 1, 0.2, 0.05, 2, "call"⟩ * Real.sqrt 1 = _
  rw [Real.sqrt_one, mul_one]
  field_simp [ga2_sigma_pos.ne']
  ring

lemma ga2_call_eq :
    GeometricAsianPricer.call_price ⟨100, 100, 1, 0.2, 0.05, 2, "call"⟩ =
      Real.exp (-(0.05 : ℝ) * 1) *
        geoForm 100 (GeometricAsianPricer.sigma_hat ⟨100, 100, 1, 0.2, 0.05, 2, "call"⟩)
          (7 / 200) := by
  unfold GeometricAsianPricer.call_price geoForm
  rw [ga2_d1, ga2_d2, ga2_miu]
  show Real.exp (-(0.05 : ℝ) * 1) * ((100 : ℝ) * Real.exp ((7 / 200) * 1) * normCdf _ -
    100 * normCdf _) = _
  norm_num

lemma aa2_d1 :
    ArithmeticAsianPricer.geo_d1 ⟨100, 0.2, 0.05, 1, 100, 2, "call", 100000, "Geometric Asian"⟩ =
      (17 / 400 + GeometricAsianPricer.sigma_hat ⟨100, 100, 1, 0.2, 0.05, 2, "call"⟩ ^ 2 / 2) /
        GeometricAsianPricer.sigma_hat ⟨100, 100, 1, 0.2, 0.05, 2, "call"⟩ := by
  unfold ArithmeticAsianPricer.geo_d1
  rw [aa2_mu, ← aa2_sigma_eq]
  show (Real.log ((100 : ℝ) / 100) +
      (17 / 400 + 0.5 * GeometricAsianPricer.sigma_hat ⟨100, 100, 1, 0.2, 0.05, 2, "call"⟩ ^ 2) * 1) /
    (GeometricAsianPricer.sigma_hat ⟨100, 100, 1, 0.2, 0.05, 2, "call"⟩ * Real.sqrt 1) = _
  rw [Real.sqrt_one, mul_one, mul_one, show Real.log ((100 : ℝ) / 100) = 0 by norm_num,
    zero_add]
  congr 1
  ring

lemma aa2_d2 :
    ArithmeticAsianPricer.geo_d2 ⟨100, 0.2, 0.05, 1, 100, 2, "call", 100000, "Geometric Asian"⟩ =
      (17 / 400 - GeometricAsianPricer.sigma_hat ⟨100, 100, 1, 0.2, 0.05, 2, "call"⟩ ^ 2 / 2) /
        GeometricAsianPricer.sigma_hat ⟨100, 100, 1, 0.2, 0.05, 2, "call"⟩ := by
  unfold ArithmeticAsianPricer.geo_d2
  rw [aa2_d1, ← aa2_sigma_eq]
  show _ - GeometricAsianPricer.sigma_hat ⟨100, 100, 1, 0.2, 0.05, 2, "call"⟩ * Real.sqrt 1 = _
  rw [Real.sqrt_one, mul_one]
  field_simp [ga2_sigma_pos.ne']
  ring

lemma aa2_geo_eq :
    ArithmeticAsianPricer.geometric_price
        ⟨100, 0.2, 0.05, 1, 100, 2, "call", 100000, "Geometric Asian"⟩ =
      Real.exp (-(0.05 : ℝ) * 1) *
        geoForm 100 (GeometricAsianPricer.sigma_hat ⟨100, 100, 1, 0.2, 0.05, 2, "call"⟩)
          (17 / 400) := by
  unfold ArithmeticAsianPricer.geometric_price geoForm
  rw [if_pos (by decide : pyLower
    (⟨100, 0.2, 0.05, 1, 100, 2, "call", 100000, "Geometric Asian"⟩ : AAParams).option_type =
      "call")]
  rw [aa2_d1, aa2_d2, aa2_mu]
  show Real.exp (-(0.05 : ℝ) * 1) * ((100 : ℝ) * Real.exp ((17 / 400) * 1) * normCdf _ -
    100 * normCdf _) = _
  norm_num

/-- C1 counter-evidence: at `S=K=100, T=1, sigma=0.2, r=0.05, n=2` the two
geometric-Asian formulas use the same effective volatility but different
effective drifts — the standalone pricer computes
`miu_hat = (r - sigma^2/2)(n+1)/(2n) + sigma_hat^2/2 = 0.035` while the
control-variate analog computes `mu_g = r - sigma^2/2 + sigma_g^2/2 = 0.0425`,
omitting the `(n+1)/(2n)` averaging factor — and consequently the standalone
price is strictly below the control-variate analog's price: the two entry
points do not evaluate the same formula. -/
theorem C1_shared_formula_divergence :
    GeometricAsianPricer.sigma_hat ⟨100, 100, 1, 0.2, 0.05, 2, "call"⟩ =
      ArithmeticAsianPricer.sigma_g
        ⟨100, 0.2, 0.05, 1, 100, 2, "call", 100000, "Geometric Asian"⟩ ∧
    GeometricAsianPricer.miu_hat ⟨100, 100, 1, 0.2, 0.05, 2, "call"⟩ = 7 / 200 ∧
    ArithmeticAsianPricer.mu_g
      ⟨100, 0.2, 0.05, 1, 100, 2, "call", 100000, "Geometric Asian"⟩ = 17 / 400 ∧
    GeometricAsianPricer.calculate_price ⟨100, 100, 1, 0.2, 0.05, 2, "call"⟩ <
      ArithmeticAsianPricer.geometric_price
        ⟨100, 0.2, 0.05, 1, 100, 2, "call", 100000, "Geometric Asian"⟩ := by
  refine ⟨aa2_sigma_eq, ga2_miu, aa2_mu, ?_⟩
  have hgcall : GeometricAsianPricer.calculate_price ⟨100, 100, 1, 0.2, 0.05, 2, "call"⟩ =
      GeometricAsianPricer.call_price ⟨100, 100, 1, 0.2, 0.05, 2, "call"⟩ := by
    unfold GeometricAsianPricer.calculate_price
    rw [if_pos (by decide : pyLower
      (⟨100, 100, 1, 0.2, 0.05, 2, "call"⟩ : GAParams).option_type = "call")]
  rw [hgcall, ga2_call_eq, aa2_geo_eq]
  have hlt : geoForm 100 (GeometricAsianPricer.sigma_hat ⟨100, 100, 1, 0.2, 0.05, 2, "call"⟩)
        (7 / 200) <
      geoForm 100 (GeometricAsianPricer.sigma_hat ⟨100, 100, 1, 0.2, 0.05, 2, "call"⟩)
        (17 / 400) :=
    geoForm_strictMono 100 _ (by norm_num) ga2_sigma_pos (by norm_num)
  exact mul_lt_mul_of_pos_left hlt (Real.exp_pos _)
